import Mathlib

/-!
Verification of the greek-property-finder scoring and enrichment core.

The definitions below are a shallow embedding of the two source files:

* the normalize-and-weight scoring engine and the browse filter, which live
  as JavaScript inside the generated page in `generate_site.py`
  (the `DATA.forEach` normalization block, the `score` function, and
  `rebuildBrowse`), and the derived-metric (yield) computation in the Python
  body of `generate_site`;
* the geospatial helpers of `scraper.py` (`nearest_airport`, `nearest_beach`,
  `nearest_city`, the enrichment defaults in `scrape_rightmove_overseas`,
  and `_estimate_airbnb`).

Numbers are modelled as rationals (`ℚ`) for JS/Python floats and as `ℤ`
for Python ints.  The haversine distance is transcendental, so the nearest-
point queries take the distance function as an explicit parameter; every
property verified here is independent of its values.
-/

namespace GreekProp

/-! ### Scoring engine data (the JS `DATA` records of `generate_site.py`) -/

/-- One record of the JS `DATA` array, restricted to the fields the scoring
and filtering engine reads: `price`, `area`, `airport` (drive minutes),
`beachKm`, `grossYield`, `reno` (0 or 1 in the generator), `region`,
plus the numeric `id` the generator assigns. -/
structure Listing where
  id : ℕ
  price : ℚ
  area : ℚ
  airport : ℚ
  beachKm : ℚ
  grossYield : ℚ
  reno : ℚ
  region : String
deriving DecidableEq, Repr

/-- `Math.min(...xs)` over a non-empty JS array (the generator always emits a
non-empty `DATA`; the empty case, `Infinity` in JS, is defaulted to 0 and is
never used under the membership hypotheses of the theorems below). -/
def listMin : List ℚ → ℚ
  | [] => 0
  | [x] => x
  | x :: y :: t => min x (listMin (y :: t))

/-- `Math.max(...xs)` over a non-empty JS array (empty case defaulted to 0,
see `listMin`). -/
def listMax : List ℚ → ℚ
  | [] => 0
  | [x] => x
  | x :: y :: t => max x (listMax (y :: t))

/-- JS `maxV === minV ? 0.5 : (maxV - v) / (maxV - minV)` — normalization of a
"lower is better" dimension (price, airport minutes, beach distance) against
the catalog-wide extremes, `DATA.forEach` block of `generate_site.py`. -/
def normLo (xs : List ℚ) (v : ℚ) : ℚ :=
  if listMax xs = listMin xs then 1/2 else (listMax xs - v) / (listMax xs - listMin xs)

/-- JS `maxV === minV ? 0.5 : (v - minV) / (maxV - minV)` — normalization of a
"higher is better" dimension (area, yield). -/
def normHi (xs : List ℚ) (v : ℚ) : ℚ :=
  if listMax xs = listMin xs then 1/2 else (v - listMin xs) / (listMax xs - listMin xs)

/-- `d.nPrice = maxPrice === minPrice ? 0.5 : (maxPrice - d.price) / (maxPrice - minPrice)`. -/
def nPrice (c : List Listing) (d : Listing) : ℚ := normLo (c.map (·.price)) d.price

/-- `d.nArea = maxArea === minArea ? 0.5 : (d.area - minArea) / (maxArea - minArea)`. -/
def nArea (c : List Listing) (d : Listing) : ℚ := normHi (c.map (·.area)) d.area

/-- `d.nAirport = maxAirport === minAirport ? 0.5 : (maxAirport - d.airport) / (maxAirport - minAirport)`. -/
def nAirport (c : List Listing) (d : Listing) : ℚ := normLo (c.map (·.airport)) d.airport

/-- `d.nBeach = maxBeach === minBeach ? 0.5 : (maxBeach - d.beachKm) / (maxBeach - minBeach)`. -/
def nBeach (c : List Listing) (d : Listing) : ℚ := normLo (c.map (·.beachKm)) d.beachKm

/-- `d.nYield = maxYield === minYield ? 0.5 : (d.grossYield - minYield) / (maxYield - minYield)`. -/
def nYield (c : List Listing) (d : Listing) : ℚ := normHi (c.map (·.grossYield)) d.grossYield

/-- `d.nReno = d.reno === 0 ? 1 : 0`. -/
def nReno (d : Listing) : ℚ := if d.reno = 0 then 1 else 0

/-- The six slider weights `wPrice, wAirport, wBeach, wSize, wYield, wReno`. -/
structure Weights where
  wPrice : ℚ
  wAirport : ℚ
  wBeach : ℚ
  wSize : ℚ
  wYield : ℚ
  wReno : ℚ
deriving DecidableEq, Repr

/-- `wPrice + wAirport + wBeach + wSize + wYield + wReno`. -/
def sumW (w : Weights) : ℚ :=
  w.wPrice + w.wAirport + w.wBeach + w.wSize + w.wYield + w.wReno

/-- JS `const total = wPrice + wAirport + wBeach + wSize + wYield + wReno || 1`:
a zero sum is replaced by `1` (for the non-negative weights of the UI, `|| 1`
fires exactly on the zero sum). -/
def totalW (w : Weights) : ℚ := if sumW w = 0 then 1 else sumW w

/-- The JS `score` function of `generate_site.py`:
`(d.nPrice*wPrice + d.nAirport*wAirport + d.nBeach*wBeach + d.nArea*wSize +
  d.nYield*wYield + d.nReno*wReno) / total * 100`. -/
def score (w : Weights) (c : List Listing) (d : Listing) : ℚ :=
  (nPrice c d * w.wPrice + nAirport c d * w.wAirport + nBeach c d * w.wBeach +
    nArea c d * w.wSize + nYield c d * w.wYield + nReno d * w.wReno) / totalW w * 100

/-- All six weights are non-negative (the UI sliders only produce
non-negative values; the spec's WeightVector invariant). -/
def WNonneg (w : Weights) : Prop :=
  0 ≤ w.wPrice ∧ 0 ≤ w.wAirport ∧ 0 ≤ w.wBeach ∧ 0 ≤ w.wSize ∧ 0 ≤ w.wYield ∧ 0 ≤ w.wReno

instance (w : Weights) : Decidable (WNonneg w) := by unfold WNonneg; infer_instance

/-! ### Bounds on the normalized dimensions -/

theorem listMin_le_of_mem : ∀ {xs : List ℚ} {a : ℚ}, a ∈ xs → listMin xs ≤ a
  | [x], a, h => by
      rcases List.mem_singleton.mp h with rfl
      exact le_refl _
  | x :: y :: t, a, h => by
      rcases List.mem_cons.mp h with rfl | h'
      · exact min_le_left _ _
      · exact le_trans (min_le_right _ _) (listMin_le_of_mem h')

theorem le_listMax_of_mem : ∀ {xs : List ℚ} {a : ℚ}, a ∈ xs → a ≤ listMax xs
  | [x], a, h => by
      rcases List.mem_singleton.mp h with rfl
      exact le_refl _
  | x :: y :: t, a, h => by
      rcases List.mem_cons.mp h with rfl | h'
      · exact le_max_left _ _
      · exact le_trans (le_listMax_of_mem h') (le_max_right _ _)

theorem listMin_le_listMax : ∀ xs : List ℚ, listMin xs ≤ listMax xs
  | [] => le_refl _
  | x :: t => le_trans (listMin_le_of_mem (List.mem_cons_self x t))
      (le_listMax_of_mem (List.mem_cons_self x t))

theorem normLo_bounds {xs : List ℚ} {v : ℚ} (hv : v ∈ xs) :
    0 ≤ normLo xs v ∧ normLo xs v ≤ 1 := by
  unfold normLo
  by_cases h : listMax xs = listMin xs
  · simp [h]; norm_num
  · have hlt : listMin xs < listMax xs := lt_of_le_of_ne (listMin_le_listMax xs) (Ne.symm h)
    have hpos : 0 < listMax xs - listMin xs := by linarith
    have h1 : listMin xs ≤ v := listMin_le_of_mem hv
    have h2 : v ≤ listMax xs := le_listMax_of_mem hv
    rw [if_neg h]
    constructor
    · exact div_nonneg (by linarith) (le_of_lt hpos)
    · rw [div_le_one hpos]; linarith

theorem normHi_bounds {xs : List ℚ} {v : ℚ} (hv : v ∈ xs) :
    0 ≤ normHi xs v ∧ normHi xs v ≤ 1 := by
  unfold normHi
  by_cases h : listMax xs = listMin xs
  · simp [h]; norm_num
  · have hlt : listMin xs < listMax xs := lt_of_le_of_ne (listMin_le_listMax xs) (Ne.symm h)
    have hpos : 0 < listMax xs - listMin xs := by linarith
    have h1 : listMin xs ≤ v := listMin_le_of_mem hv
    have h2 : v ≤ listMax xs := le_listMax_of_mem hv
    rw [if_neg h]
    constructor
    · exact div_nonneg (by linarith) (le_of_lt hpos)
    · rw [div_le_one hpos]; linarith

theorem nReno_bounds (d : Listing) : 0 ≤ nReno d ∧ nReno d ≤ 1 := by
  unfold nReno; split <;> norm_num

theorem nPrice_bounds {c : List Listing} {d : Listing} (hd : d ∈ c) :
    0 ≤ nPrice c d ∧ nPrice c d ≤ 1 :=
  normLo_bounds (List.mem_map_of_mem (·.price) hd)

theorem nArea_bounds {c : List Listing} {d : Listing} (hd : d ∈ c) :
    0 ≤ nArea c d ∧ nArea c d ≤ 1 :=
  normHi_bounds (List.mem_map_of_mem (·.area) hd)

theorem nAirport_bounds {c : List Listing} {d : Listing} (hd : d ∈ c) :
    0 ≤ nAirport c d ∧ nAirport c d ≤ 1 :=
  normLo_bounds (List.mem_map_of_mem (·.airport) hd)

theorem nBeach_bounds {c : List Listing} {d : Listing} (hd : d ∈ c) :
    0 ≤ nBeach c d ∧ nBeach c d ≤ 1 :=
  normLo_bounds (List.mem_map_of_mem (·.beachKm) hd)

theorem nYield_bounds {c : List Listing} {d : Listing} (hd : d ∈ c) :
    0 ≤ nYield c d ∧ nYield c d ≤ 1 :=
  normHi_bounds (List.mem_map_of_mem (·.grossYield) hd)

/-- C1: for every catalog, every listing of the catalog (whose six normalized
dimension values are computed from the catalog's min/max) and every vector of
six non-negative weights, the score returned by the scoring function lies in
[0, 100] inclusive. -/
theorem c1_score_in_unit_range (w : Weights) (c : List Listing) (d : Listing)
    (hw : WNonneg w) (hd : d ∈ c) : 0 ≤ score w c d ∧ score w c d ≤ 100 := by
  obtain ⟨h1, h2, h3, h4, h5, h6⟩ := hw
  obtain ⟨p0, p1⟩ := nPrice_bounds hd
  obtain ⟨a0, a1⟩ := nAirport_bounds hd
  obtain ⟨b0, b1⟩ := nBeach_bounds hd
  obtain ⟨s0, s1⟩ := nArea_bounds hd
  obtain ⟨y0, y1⟩ := nYield_bounds hd
  obtain ⟨r0, r1⟩ := nReno_bounds d
  by_cases hs : sumW w = 0
  · have e1 : w.wPrice = 0 := by unfold sumW at hs; linarith
    have e2 : w.wAirport = 0 := by unfold sumW at hs; linarith
    have e3 : w.wBeach = 0 := by unfold sumW at hs; linarith
    have e4 : w.wSize = 0 := by unfold sumW at hs; linarith
    have e5 : w.wYield = 0 := by unfold sumW at hs; linarith
    have e6 : w.wReno = 0 := by unfold sumW at hs; linarith
    have hz : score w c d = 0 := by
      unfold score totalW
      rw [if_pos hs, e1, e2, e3, e4, e5, e6]; ring
    rw [hz]; norm_num
  · have hpos : 0 < sumW w := by
      rcases lt_or_eq_of_le (show 0 ≤ sumW w by unfold sumW; linarith) with h | h
      · exact h
      · exact absurd h.symm hs
    have htot : totalW w = sumW w := by unfold totalW; rw [if_neg hs]
    have m1 : nPrice c d * w.wPrice ≤ w.wPrice := mul_le_of_le_one_left h1 p1
    have m2 : nAirport c d * w.wAirport ≤ w.wAirport := mul_le_of_le_one_left h2 a1
    have m3 : nBeach c d * w.wBeach ≤ w.wBeach := mul_le_of_le_one_left h3 b1
    have m4 : nArea c d * w.wSize ≤ w.wSize := mul_le_of_le_one_left h4 s1
    have m5 : nYield c d * w.wYield ≤ w.wYield := mul_le_of_le_one_left h5 y1
    have m6 : nReno d * w.wReno ≤ w.wReno := mul_le_of_le_one_left h6 r1
    have n1 := mul_nonneg p0 h1
    have n2 := mul_nonneg a0 h2
    have n3 := mul_nonneg b0 h3
    have n4 := mul_nonneg s0 h4
    have n5 := mul_nonneg y0 h5
    have n6 := mul_nonneg r0 h6
    have hN0 : 0 ≤ nPrice c d * w.wPrice + nAirport c d * w.wAirport +
        nBeach c d * w.wBeach + nArea c d * w.wSize + nYield c d * w.wYield +
        nReno d * w.wReno := by linarith
    have hN1 : nPrice c d * w.wPrice + nAirport c d * w.wAirport +
        nBeach c d * w.wBeach + nArea c d * w.wSize + nYield c d * w.wYield +
        nReno d * w.wReno ≤ sumW w := by unfold sumW; linarith
    have hdiv0 : 0 ≤ (nPrice c d * w.wPrice + nAirport c d * w.wAirport +
        nBeach c d * w.wBeach + nArea c d * w.wSize + nYield c d * w.wYield +
        nReno d * w.wReno) / sumW w := div_nonneg hN0 hpos.le
    have hdiv1 : (nPrice c d * w.wPrice + nAirport c d * w.wAirport +
        nBeach c d * w.wBeach + nArea c d * w.wSize + nYield c d * w.wYield +
        nReno d * w.wReno) / sumW w ≤ 1 := (div_le_one hpos).mpr hN1
    unfold score
    rw [htot]
    constructor
    · nlinarith
    · nlinarith

/-- Concrete slider weights (the page's initial values). -/
def w0 : Weights := ⟨25, 20, 20, 15, 15, 5⟩

/-- A concrete listing. -/
def L0 : Listing := ⟨0, 50000, 40, 30, 2, 5, 0, "crete"⟩

/-- A second concrete listing. -/
def L1 : Listing := ⟨1, 90000, 80, 60, 10, 3, 1, "attica"⟩

/-- A concrete two-listing catalog. -/
def c0 : List Listing := [L0, L1]

/-- C1 witness: the bound at a concrete catalog, listing and weight vector. -/
theorem c1_score_in_unit_range_witness :
    (WNonneg w0 ∧ L0 ∈ c0) ∧ (0 ≤ score w0 c0 L0 ∧ score w0 c0 L0 ≤ 100) :=
  ⟨⟨by decide, by decide⟩, c1_score_in_unit_range w0 c0 L0 (by decide) (by decide)⟩

theorem score_allZero (c : List Listing) (d : Listing) :
    score ⟨0, 0, 0, 0, 0, 0⟩ c d = 0 := by
  unfold score totalW sumW
  norm_num

/-- C2: with all six weights zero the scoring function is still defined —
the zero total weight is replaced by 1, so no division by zero occurs — and
returns exactly 0 for every listing. -/
theorem c2_zero_weights_score_zero :
    totalW ⟨0, 0, 0, 0, 0, 0⟩ = 1 ∧
      ∀ (c : List Listing) (d : Listing), score ⟨0, 0, 0, 0, 0, 0⟩ c d = 0 := by
  constructor
  · norm_num [totalW, sumW]
  · exact score_allZero

/-- C3: for each continuous scoring dimension (price, airport minutes, beach
distance, area, yield), if the catalog maximum equals the catalog minimum on
that dimension then every listing's normalized value for that dimension is
exactly 0.5, for every catalog and independently of the weights. -/
theorem c3_degenerate_range_half (c : List Listing) (d : Listing) :
    (listMax (c.map (·.price)) = listMin (c.map (·.price)) → nPrice c d = 1/2) ∧
    (listMax (c.map (·.airport)) = listMin (c.map (·.airport)) → nAirport c d = 1/2) ∧
    (listMax (c.map (·.beachKm)) = listMin (c.map (·.beachKm)) → nBeach c d = 1/2) ∧
    (listMax (c.map (·.area)) = listMin (c.map (·.area)) → nArea c d = 1/2) ∧
    (listMax (c.map (·.grossYield)) = listMin (c.map (·.grossYield)) → nYield c d = 1/2) := by
  refine ⟨fun h => ?_, fun h => ?_, fun h => ?_, fun h => ?_, fun h => ?_⟩ <;>
    simp [nPrice, nAirport, nBeach, nArea, nYield, normLo, normHi, h]

/-- C3 witness: in the one-listing catalog `[L0]` every dimension is
degenerate and every normalized value evaluates to 0.5. -/
theorem c3_degenerate_range_half_witness :
    (listMax ([L0].map (·.price)) = listMin ([L0].map (·.price)) ∧ nPrice [L0] L0 = 1/2) ∧
    (listMax ([L0].map (·.airport)) = listMin ([L0].map (·.airport)) ∧ nAirport [L0] L0 = 1/2) ∧
    (listMax ([L0].map (·.beachKm)) = listMin ([L0].map (·.beachKm)) ∧ nBeach [L0] L0 = 1/2) ∧
    (listMax ([L0].map (·.area)) = listMin ([L0].map (·.area)) ∧ nArea [L0] L0 = 1/2) ∧
    (listMax ([L0].map (·.grossYield)) = listMin ([L0].map (·.grossYield)) ∧ nYield [L0] L0 = 1/2) :=
  ⟨⟨by decide, (c3_degenerate_range_half [L0] L0).1 (by decide)⟩,
   ⟨by decide, (c3_degenerate_range_half [L0] L0).2.1 (by decide)⟩,
   ⟨by decide, (c3_degenerate_range_half [L0] L0).2.2.1 (by decide)⟩,
   ⟨by decide, (c3_degenerate_range_half [L0] L0).2.2.2.1 (by decide)⟩,
   ⟨by decide, (c3_degenerate_range_half [L0] L0).2.2.2.2 (by decide)⟩⟩

/-- C5: for every catalog and every non-negative weight vector with positive
weight on price, if listings A and B are identical on all scoring dimensions
except price and A's price is lower, then A's score is at least B's score. -/
theorem c5_cheaper_scores_higher (w : Weights) (c : List Listing) (A B : Listing)
    (hw : WNonneg w) (hp : 0 < w.wPrice) (hprice : A.price < B.price)
    (harea : A.area = B.area) (hair : A.airport = B.airport)
    (hbeach : A.beachKm = B.beachKm) (hyield : A.grossYield = B.grossYield)
    (hreno : A.reno = B.reno) :
    score w c B ≤ score w c A := by
  obtain ⟨h1, h2, h3, h4, h5, h6⟩ := hw
  have eArea : nArea c A = nArea c B := by unfold nArea; rw [harea]
  have eAir : nAirport c A = nAirport c B := by unfold nAirport; rw [hair]
  have eBeach : nBeach c A = nBeach c B := by unfold nBeach; rw [hbeach]
  have eYield : nYield c A = nYield c B := by unfold nYield; rw [hyield]
  have eReno : nReno A = nReno B := by unfold nReno; rw [hreno]
  have hnp : nPrice c B ≤ nPrice c A := by
    unfold nPrice normLo
    by_cases hmm : listMax (c.map (·.price)) = listMin (c.map (·.price))
    · rw [if_pos hmm, if_pos hmm]
    · rw [if_neg hmm, if_neg hmm]
      have hlt : listMin (c.map (·.price)) < listMax (c.map (·.price)) :=
        lt_of_le_of_ne (listMin_le_listMax _) (Ne.symm hmm)
      have hpos : 0 < listMax (c.map (·.price)) - listMin (c.map (·.price)) := by linarith
      exact (div_le_div_iff_of_pos_right hpos).mpr (by linarith)
  have hpos : 0 < sumW w := by unfold sumW; linarith
  have htot : totalW w = sumW w := by unfold totalW; rw [if_neg (ne_of_gt hpos)]
  unfold score
  rw [htot, eArea, eAir, eBeach, eYield, eReno]
  have hnum : nPrice c B * w.wPrice + nAirport c B * w.wAirport + nBeach c B * w.wBeach +
      nArea c B * w.wSize + nYield c B * w.wYield + nReno B * w.wReno ≤
      nPrice c A * w.wPrice + nAirport c B * w.wAirport + nBeach c B * w.wBeach +
      nArea c B * w.wSize + nYield c B * w.wYield + nReno B * w.wReno := by
    have := mul_le_mul_of_nonneg_right hnp hp.le
    linarith
  exact mul_le_mul_of_nonneg_right ((div_le_div_iff_of_pos_right hpos).mpr hnum) (by norm_num)

/-- A concrete listing, twin of `B0` at a lower price. -/
def A0 : Listing := ⟨0, 40000, 50, 30, 2, 5, 0, "crete"⟩

/-- A concrete listing, twin of `A0` at a higher price. -/
def B0 : Listing := ⟨1, 80000, 50, 30, 2, 5, 0, "crete"⟩

/-- C5 witness: the monotonicity at a concrete catalog and weight vector. -/
theorem c5_cheaper_scores_higher_witness :
    (WNonneg w0 ∧ 0 < w0.wPrice ∧ A0.price < B0.price ∧ A0.area = B0.area ∧
      A0.airport = B0.airport ∧ A0.beachKm = B0.beachKm ∧
      A0.grossYield = B0.grossYield ∧ A0.reno = B0.reno) ∧
    score w0 [A0, B0] B0 ≤ score w0 [A0, B0] A0 :=
  ⟨⟨by decide, by decide, by decide, by decide, by decide, by decide, by decide, by decide⟩,
    c5_cheaper_scores_higher w0 [A0, B0] A0 B0 (by decide) (by decide) (by decide)
      (by decide) (by decide) (by decide) (by decide) (by decide)⟩

/-! ### Ranking & filtering (`rebuildBrowse` in the JS of `generate_site.py`) -/

/-- A `DATA` record spread together with its score:
JS `({...d, sc: score(d)})`. -/
structure Scored where
  data : Listing
  sc : ℚ
deriving DecidableEq, Repr

/-- `DATA.map(d => ({...d, sc: score(d)}))` — the whole catalog scored (the
normalization bounds inside `score` always come from the full catalog). -/
def scoreAll (w : Weights) (c : List Listing) : List Scored :=
  c.map (fun d => ⟨d, score w c d⟩)

/-- The browse filters of `getFilters()`: `region` is a string where `""`
(falsy in JS) means "no region filter"; `priceMax`/`airportMax` are `none`
when the input box is blank (JS `parseFloat(...) || Infinity`). -/
structure FilterCriteria where
  region : String
  priceMax : Option ℚ
  airportMax : Option ℚ
deriving DecidableEq, Repr

/-- The filter predicate of `rebuildBrowse`: drop the listing when a region
is selected and differs (`f.region && d.region !== f.region`), when
`d.price > f.priceMax`, or when `d.airport > f.airportMax`. -/
def matchesFilter (f : FilterCriteria) (d : Listing) : Bool :=
  (f.region == "" || d.region == f.region) &&
  (match f.priceMax with
   | none => true
   | some m => decide (d.price ≤ m)) &&
  (match f.airportMax with
   | none => true
   | some m => decide (d.airport ≤ m))

/-- The order used by `.sort((a, b) => b.sc - a.sc)`: descending score. -/
def byScoreDesc (a b : Scored) : Prop := b.sc ≤ a.sc

instance : DecidableRel byScoreDesc :=
  fun a b => inferInstanceAs (Decidable (b.sc ≤ a.sc))

instance : IsTotal Scored byScoreDesc := ⟨fun a b => le_total b.sc a.sc⟩

instance : IsTrans Scored byScoreDesc := ⟨fun _ _ _ h1 h2 => le_trans h2 h1⟩

/-- The `rebuildBrowse` pipeline of `generate_site.py`: score the full
catalog, filter, then sort by descending score.  `Array.prototype.sort` is
stable (ES2019), and with the comparator `b.sc - a.sc` it computes exactly a
stable descending-by-score sort, modelled here by `List.insertionSort`. -/
def rebuildBrowse (f : FilterCriteria) (w : Weights) (c : List Listing) : List Scored :=
  List.insertionSort byScoreDesc
    ((scoreAll w c).filter (fun d => matchesFilter f d.data))

/-- C4: `rebuildBrowse` returns exactly the scored listings matching all
supplied criteria (as a permutation of the filtered scored catalog), sorted
by descending score; and any pair already in non-ascending score order in the
filtered input — in particular any equal-score pair, and any pair ordered by
score — keeps its relative order in the output, so filtering never changes
the relative score ordering among the listings that remain. -/
theorem c4_rebuildBrowse_spec (f : FilterCriteria) (w : Weights) (c : List Listing) :
    (rebuildBrowse f w c).Perm
        ((scoreAll w c).filter (fun d => matchesFilter f d.data)) ∧
    (rebuildBrowse f w c).Sorted byScoreDesc ∧
    (∀ a b : Scored,
      List.Sublist [a, b] ((scoreAll w c).filter (fun d => matchesFilter f d.data)) →
      b.sc ≤ a.sc → List.Sublist [a, b] (rebuildBrowse f w c)) :=
  ⟨List.perm_insertionSort _ _, List.sorted_insertionSort _ _,
    fun _ _ hsub hle => List.pair_sublist_insertionSort hle hsub⟩

/-- Empty browse filters (no region, no price cap, no airport cap). -/
def f0 : FilterCriteria := ⟨"", none, none⟩

/-- The all-zero weight vector (every listing then scores 0). -/
def wZ : Weights := ⟨0, 0, 0, 0, 0, 0⟩

theorem filtered_wZ_c0 :
    (scoreAll wZ c0).filter (fun d => matchesFilter f0 d.data) = [⟨L0, 0⟩, ⟨L1, 0⟩] := by
  have h1 : scoreAll wZ c0 = [⟨L0, 0⟩, ⟨L1, 0⟩] := by
    simp [scoreAll, c0, wZ, score_allZero]
  rw [h1]
  decide

/-- C4 witness: at the all-zero weight vector the two listings of `c0` tie at
score 0, and their input order is preserved by `rebuildBrowse`. -/
theorem c4_rebuildBrowse_spec_witness :
    (List.Sublist [⟨L0, 0⟩, ⟨L1, 0⟩] ((scoreAll wZ c0).filter (fun d => matchesFilter f0 d.data)) ∧
      (⟨L1, 0⟩ : Scored).sc ≤ (⟨L0, 0⟩ : Scored).sc) ∧
    List.Sublist [⟨L0, 0⟩, ⟨L1, 0⟩] (rebuildBrowse f0 wZ c0) :=
  ⟨⟨filtered_wZ_c0 ▸ List.Sublist.refl _, le_refl _⟩,
    (c4_rebuildBrowse_spec f0 wZ c0).2.2 ⟨L0, 0⟩ ⟨L1, 0⟩
      (filtered_wZ_c0 ▸ List.Sublist.refl _) (le_refl _)⟩

/-! ### Geospatial helpers (`scraper.py`) -/

/-- Python `int(q)` on a float value: truncation toward zero. -/
def pyInt (q : ℚ) : ℤ := if 0 ≤ q then ⌊q⌋ else ⌈q⌉

/-- Python `round(q, 1)` idealized over exact rationals: round half to even
at one decimal place. -/
def roundHalfEven (q : ℚ) : ℤ :=
  if q - ⌊q⌋ < 1/2 then ⌊q⌋
  else if 1/2 < q - ⌊q⌋ then ⌊q⌋ + 1
  else if ⌊q⌋ % 2 = 0 then ⌊q⌋ else ⌊q⌋ + 1

/-- `round(x, 1)` as used by the source: half-even rounding at one decimal. -/
def pyRound1 (q : ℚ) : ℚ := (roundHalfEven (q * 10) : ℚ) / 10

/-- `int(best_km * 1.4 / 50 * 60)` — the airport drive-minute estimate of
`nearest_airport` ("1.4x straight-line for roads, 50 km/h average"). -/
def airportDriveMin (km : ℚ) : ℤ := pyInt (km * 1.4 / 50 * 60)

/-- The beach drive-minute estimate of `nearest_beach`: 2 under 0.5 km
("basically on the beach"), 5 under 2 km, else
`max(5, int(km * 1.3 / 40 * 60))`; the result is passed through
`min(drive_min, 180)`. -/
def beachDriveMin (km : ℚ) : ℤ :=
  min (if km < 0.5 then 2 else if km < 2 then 5 else max 5 (pyInt (km * 1.3 / 40 * 60))) 180

/-- `max(5, int(best_km * 1.3 / 50 * 60))` — the city drive-minute estimate
of `nearest_city` (the `max` is applied at the `return`). -/
def cityDriveMin (km : ℚ) : ℤ := max 5 (pyInt (km * 1.3 / 50 * 60))

/-- One entry of the `AIRPORTS` table: code, name, coordinates,
`year_round` flag. -/
structure Airport where
  code : String
  name : String
  lat : ℚ
  lng : ℚ
  year_round : Bool
deriving DecidableEq, Repr

/-- One OSM beach record: name (possibly empty) and coordinates. -/
structure Beach where
  name : String
  lat : ℚ
  lng : ℚ
deriving DecidableEq, Repr

/-- One entry of the `CITIES` table: name, coordinates, population. -/
structure City where
  name : String
  lat : ℚ
  lng : ℚ
  pop : ℤ
deriving DecidableEq, Repr

/-- The `best`/`best_km` selection loop shared by `nearest_airport`,
`nearest_beach` and `nearest_city`: start from `best = None`,
`best_km = 9999` and keep the first strictly closer point. -/
def nearestLoop {α : Type} (dist : α → ℚ) (pts : List α) : Option α × ℚ :=
  pts.foldl
    (fun acc p =>
      let km := dist p
      if km < acc.2 then (some p, km) else acc)
    (none, 9999)

/-- `nearest_airport(lat, lng)` of `scraper.py`, with the `AIRPORTS` table
and the (transcendental) `_haversine_km` as parameters.  When the loop finds
no point (empty table, or every point at distance ≥ 9999 km) the Python
`code, info = best` unpacking of `None` raises a `TypeError`, modelled as
`none`. -/
def nearest_airport (hav : ℚ → ℚ → ℚ → ℚ → ℚ) (airports : List Airport)
    (lat lng : ℚ) : Option (String × String × ℤ × Bool) :=
  match nearestLoop (fun a => hav lat lng a.lat a.lng) airports with
  | (none, _) => none
  | (some a, km) => some (a.code, a.name, airportDriveMin km, a.year_round)

/-- `nearest_beach(lat, lng)` of `scraper.py`, with the beach list and
`_haversine_km` as parameters.  On an empty beach list the source returns
the sentinel `("Unknown", lat, lng, 0, 30, url)` — the display-only Google
Maps URL strings are omitted here.  On a non-empty list whose points all
sit at distance ≥ 9999 km, `best.get` on `None` raises, modelled `none`;
otherwise the result carries the name (`"Beach"` when empty), the beach
coordinates, `round(best_km, 1)` and the clamped drive minutes. -/
def nearest_beach (hav : ℚ → ℚ → ℚ → ℚ → ℚ) (beaches : List Beach)
    (lat lng : ℚ) : Option (String × ℚ × ℚ × ℚ × ℤ) :=
  match beaches with
  | [] => some ("Unknown", lat, lng, 0, 30)
  | _ =>
    match nearestLoop (fun b => hav lat lng b.lat b.lng) beaches with
    | (none, _) => none
    | (some b, km) =>
      some ((if b.name = "" then "Beach" else b.name), b.lat, b.lng,
        pyRound1 km, beachDriveMin km)

/-- `nearest_city(lat, lng)` of `scraper.py`, with the `CITIES` table and
`_haversine_km` as parameters.  `best["name"]` on `None` raises, modelled
as `none`. -/
def nearest_city (hav : ℚ → ℚ → ℚ → ℚ → ℚ) (cities : List City)
    (lat lng : ℚ) : Option (String × ℤ × ℤ) :=
  match nearestLoop (fun c => hav lat lng c.lat c.lng) cities with
  | (none, _) => none
  | (some c, km) => some (c.name, c.pop, cityDriveMin km)

/-- C6 counterexample: the airport estimate is the raw linear formula with
no clamp at all, so no pair of minimum/maximum clamp bounds can describe it:
whatever bounds are claimed, the distance `max hi 0 + 1` km already pushes
the estimate above the claimed maximum. -/
theorem c6_airport_unclamped_counterexample :
    ¬ ∃ lo hi : ℤ, ∀ km : ℚ, 0 ≤ km →
      lo ≤ airportDriveMin km ∧ airportDriveMin km ≤ hi := by
  rintro ⟨lo, hi, h⟩
  have hk1 : (1 : ℤ) ≤ max hi 0 + 1 := by omega
  have hk0 : (0 : ℚ) ≤ ((max hi 0 + 1 : ℤ) : ℚ) := by exact_mod_cast le_trans (by norm_num) hk1
  have h2 := (h ((max hi 0 + 1 : ℤ) : ℚ) hk0).2
  have hmul : ((max hi 0 + 1 : ℤ) : ℚ) ≤ ((max hi 0 + 1 : ℤ) : ℚ) * 1.4 / 50 * 60 := by
    have h14 : ((max hi 0 + 1 : ℤ) : ℚ) * 1.4 / 50 * 60
        = ((max hi 0 + 1 : ℤ) : ℚ) * (42/25) := by ring
    rw [h14]; linarith
  have hnn : (0 : ℚ) ≤ ((max hi 0 + 1 : ℤ) : ℚ) * 1.4 / 50 * 60 := le_trans hk0 hmul
  have hfl : max hi 0 + 1 ≤ ⌊((max hi 0 + 1 : ℤ) : ℚ) * 1.4 / 50 * 60⌋ :=
    Int.le_floor.mpr (by push_cast; push_cast at hmul; linarith)
  have heq : airportDriveMin ((max hi 0 + 1 : ℤ) : ℚ)
      = ⌊((max hi 0 + 1 : ℤ) : ℚ) * 1.4 / 50 * 60⌋ := by
    unfold airportDriveMin pyInt; rw [if_pos hnn]
  rw [heq] at h2
  omega

/-- C6 (amended): only the beach estimate is clamped to both a minimum and a
maximum — for a distance of at least 0.5 km it equals the linear formula
clamped to [5, 180] minutes, with the special value 2 below 0.5 km; the
city estimate is clamped below at 5 minutes only; the airport estimate is
the unclamped linear formula. -/
theorem c6_drive_minutes_amended :
    (∀ km : ℚ, 1/2 ≤ km →
      beachDriveMin km = max 5 (min 180 (pyInt (km * 1.3 / 40 * 60)))) ∧
    (∀ km : ℚ, km < 1/2 → beachDriveMin km = 2) ∧
    (∀ km : ℚ, cityDriveMin km = max 5 (pyInt (km * 1.3 / 50 * 60))) ∧
    (∀ km : ℚ, airportDriveMin km = pyInt (km * 1.4 / 50 * 60)) := by
  refine ⟨fun km h => ?_, fun km h => ?_, fun km => rfl, fun km => rfl⟩
  · have h05 : ¬ km < 0.5 := by rw [show (0.5 : ℚ) = 1/2 by norm_num]; exact not_lt.mpr h
    have hnn : (0 : ℚ) ≤ km * 1.3 / 40 * 60 := by
      have : km * 1.3 / 40 * 60 = km * (39/20) := by ring
      rw [this]; nlinarith
    have hfl : pyInt (km * 1.3 / 40 * 60) = ⌊km * 1.3 / 40 * 60⌋ := by
      unfold pyInt; rw [if_pos hnn]
    unfold beachDriveMin
    rw [if_neg h05]
    by_cases h2 : km < 2
    · rw [if_pos h2, hfl]
      have hup : ⌊km * 1.3 / 40 * 60⌋ < 4 := by
        rw [Int.floor_lt]
        have : km * 1.3 / 40 * 60 = km * (39/20) := by ring
        rw [this]; push_cast; nlinarith
      have hdn : 0 ≤ ⌊km * 1.3 / 40 * 60⌋ := Int.floor_nonneg.mpr hnn
      omega
    · rw [if_neg h2, hfl]
      omega
  · unfold beachDriveMin
    have h05 : km < 0.5 := by rw [show (0.5 : ℚ) = 1/2 by norm_num]; exact h
    rw [if_pos h05]
    decide

/-- C6 amended witness: the amended characterization evaluated at the
concrete distances 3 km and 0.25 km. -/
theorem c6_drive_minutes_amended_witness :
    ((1 : ℚ)/2 ≤ 3 ∧ beachDriveMin 3 = max 5 (min 180 (pyInt (3 * 1.3 / 40 * 60)))) ∧
    ((1 : ℚ)/4 < 1/2 ∧ beachDriveMin (1/4) = 2) ∧
    cityDriveMin 3 = max 5 (pyInt (3 * 1.3 / 50 * 60)) ∧
    airportDriveMin 3 = pyInt (3 * 1.4 / 50 * 60) :=
  ⟨⟨by norm_num, c6_drive_minutes_amended.1 3 (by norm_num)⟩,
   ⟨by norm_num, c6_drive_minutes_amended.2.1 (1/4) (by norm_num)⟩,
   c6_drive_minutes_amended.2.2.1 3,
   c6_drive_minutes_amended.2.2.2 3⟩

/-- C7 counterexample: against the empty beach reference set the
nearest-beach query does not fail — it returns the sentinel
`("Unknown", query-lat, query-lng, 0 km, 30 min)` as if a beach had been
found. -/
theorem c7_empty_beach_sentinel_counterexample :
    nearest_beach (fun _ _ _ _ => 0) [] 38 23 = some ("Unknown", 38, 23, 0, 30) ∧
    nearest_beach (fun _ _ _ _ => 0) [] 38 23 ≠ none :=
  ⟨rfl, by decide⟩

/-- C7 (amended): on an empty reference set the beach query returns a
sentinel "found-looking" result instead of failing, while the airport and
city queries do fail there (the Python unpacking of `None` raises). -/
theorem c7_empty_reference_amended (hav : ℚ → ℚ → ℚ → ℚ → ℚ) (lat lng : ℚ) :
    nearest_beach hav [] lat lng = some ("Unknown", lat, lng, 0, 30) ∧
    nearest_airport hav [] lat lng = none ∧
    nearest_city hav [] lat lng = none :=
  ⟨rfl, rfl, rfl⟩

/-! ### Enrichment defaults (`scrape_rightmove_overseas`, `scraper.py`) -/

/-- The proximity/region fields a listing record receives during enrichment
in `scrape_rightmove_overseas` (the display-only directions URL string is
omitted). -/
structure ProxFields where
  airport_code : String
  airport_name : String
  airport_min : ℤ
  airport_yr : Bool
  beach_name : String
  beach_lat : ℚ
  beach_lng : ℚ
  beach_km : ℚ
  beach_min : ℤ
  city_name : String
  city_pop : ℤ
  city_min : ℤ
  region : String
deriving DecidableEq, Repr

/-- The pre-`if` defaults of `scrape_rightmove_overseas`:
`airport_code, airport_name, airport_min, airport_yr = "", "", 60, False`;
`beach_name, beach_lat, beach_lng, beach_km = "Unknown", 0, 0, 0`;
`beach_min_val = 30`; `city_name, city_pop, city_min = "", 0, 60`;
`region = "other"`. -/
def defaultProx : ProxFields :=
  ⟨"", "", 60, false, "Unknown", 0, 0, 0, 30, "", 0, 60, "other"⟩

/-- Python truthiness of an optional coordinate: `None`, `0` and `0.0` are
falsy. -/
def truthy : Option ℚ → Bool
  | none => false
  | some q => q != 0

/-- The `if lat and lng:` enrichment step of `scrape_rightmove_overseas`:
with truthy coordinates all proximity fields are recomputed together from
the three geo queries and `classify_region` (here a parameter); a failing
query raises, aborting the listing (`none`); with falsy coordinates the
record keeps every default. -/
def enrichProx (hav : ℚ → ℚ → ℚ → ℚ → ℚ) (airports : List Airport)
    (beaches : List Beach) (cities : List City) (classify : ℚ → ℚ → String)
    (lat lng : Option ℚ) : Option ProxFields :=
  match lat, lng with
  | some la, some ln =>
    if la ≠ 0 ∧ ln ≠ 0 then do
      let (code, aname, amin, ayr) ← nearest_airport hav airports la ln
      let (bname, blat, blng, bkm, bmin) ← nearest_beach hav beaches la ln
      let (cname, cpop, cmin) ← nearest_city hav cities la ln
      some ⟨code, aname, amin, ayr, bname, blat, blng, bkm, bmin,
        cname, cpop, cmin, classify la ln⟩
    else some defaultProx
  | _, _ => some defaultProx

/-- C8 counterexample: a listing without coordinates is "enriched" to the
default record, whose proximity fields are the real-looking numbers
60/30/60 minutes — and `beach_km` is the numeric zero — not explicit
"unknown" sentinels. -/
theorem c8_numeric_defaults_counterexample :
    enrichProx (fun _ _ _ _ => 0) [] [] [] (fun _ _ => "other") none none
      = some defaultProx ∧
    defaultProx.airport_min = 60 ∧ defaultProx.beach_min = 30 ∧
    defaultProx.beach_km = 0 ∧ defaultProx.city_min = 60 :=
  ⟨rfl, rfl, rfl, rfl, rfl⟩

/-- C8 (amended): a listing without truthy coordinates keeps the fixed
numeric defaults (airport 60 min, beach "Unknown"/0 km/30 min, city 60 min,
region "other") rather than explicit unknown sentinels; enrichment is
all-or-nothing: any enriched record is either exactly that default record
or has every proximity field computed together from the three geo queries
and the region classifier. -/
theorem c8_enrichment_amended (hav : ℚ → ℚ → ℚ → ℚ → ℚ) (airports : List Airport)
    (beaches : List Beach) (cities : List City) (classify : ℚ → ℚ → String)
    (lat lng : Option ℚ) :
    (¬ (truthy lat = true ∧ truthy lng = true) →
      enrichProx hav airports beaches cities classify lat lng = some defaultProx) ∧
    (∀ r : ProxFields,
      enrichProx hav airports beaches cities classify lat lng = some r →
      r = defaultProx ∨
      ∃ (la ln : ℚ) (code aname : String) (amin : ℤ) (ayr : Bool)
        (bname : String) (blat blng bkm : ℚ) (bmin : ℤ)
        (cname : String) (cpop cmin : ℤ),
        lat = some la ∧ lng = some ln ∧
        nearest_airport hav airports la ln = some (code, aname, amin, ayr) ∧
        nearest_beach hav beaches la ln = some (bname, blat, blng, bkm, bmin) ∧
        nearest_city hav cities la ln = some (cname, cpop, cmin) ∧
        r = ⟨code, aname, amin, ayr, bname, blat, blng, bkm, bmin,
          cname, cpop, cmin, classify la ln⟩) := by
  constructor
  · intro h
    match lat, lng with
    | none, none => rfl
    | none, some ln => rfl
    | some la, none => rfl
    | some la, some ln =>
      simp only [truthy, bne_iff_ne, ne_eq] at h
      rw [not_and_or] at h
      unfold enrichProx
      dsimp only
      rw [if_neg]
      intro hc
      rcases h with h | h
      · exact (not_not.mpr hc.1) h
      · exact (not_not.mpr hc.2) h
  · intro r hr
    match lat, lng with
    | none, none => left; exact (Option.some_inj.mp hr).symm
    | none, some ln => left; exact (Option.some_inj.mp hr).symm
    | some la, none => left; exact (Option.some_inj.mp hr).symm
    | some la, some ln =>
      unfold enrichProx at hr
      dsimp only at hr
      by_cases hc : la ≠ 0 ∧ ln ≠ 0
      · rw [if_pos hc] at hr
        cases h1 : nearest_airport hav airports la ln with
        | none => rw [h1] at hr; exact absurd hr (by simp)
        | some q1 =>
          obtain ⟨code, aname, amin, ayr⟩ := q1
          rw [h1] at hr
          cases h2 : nearest_beach hav beaches la ln with
          | none => rw [h2] at hr; exact absurd hr (by simp)
          | some q2 =>
            obtain ⟨bname, blat, blng, bkm, bmin⟩ := q2
            rw [h2] at hr
            cases h3 : nearest_city hav cities la ln with
            | none => rw [h3] at hr; exact absurd hr (by simp)
            | some q3 =>
              obtain ⟨cname, cpop, cmin⟩ := q3
              rw [h3] at hr
              simp only [Option.bind_eq_bind, Option.some_bind, Option.some_inj] at hr
              right
              exact ⟨la, ln, code, aname, amin, ayr, bname, blat, blng, bkm, bmin,
                cname, cpop, cmin, rfl, rfl, h1, h2, h3, hr.symm⟩
      · rw [if_neg hc] at hr
        left
        exact (Option.some_inj.mp hr).symm

/-- C8 amended witness: the amended statement instantiated at a coordinate-
free listing; both parts are discharged there and agree on the default
record. -/
theorem c8_enrichment_amended_witness :
    (¬ (truthy none = true ∧ truthy none = true)) ∧
    enrichProx (fun _ _ _ _ => 0) [] [] [] (fun _ _ => "other") none none
      = some defaultProx ∧
    (defaultProx = defaultProx ∨
      ∃ (la ln : ℚ) (code aname : String) (amin : ℤ) (ayr : Bool)
        (bname : String) (blat blng bkm : ℚ) (bmin : ℤ)
        (cname : String) (cpop cmin : ℤ),
        (none : Option ℚ) = some la ∧ (none : Option ℚ) = some ln ∧
        nearest_airport (fun _ _ _ _ => 0) [] la ln = some (code, aname, amin, ayr) ∧
        nearest_beach (fun _ _ _ _ => 0) [] la ln = some (bname, blat, blng, bkm, bmin) ∧
        nearest_city (fun _ _ _ _ => 0) [] la ln = some (cname, cpop, cmin) ∧
        defaultProx = ⟨code, aname, amin, ayr, bname, blat, blng, bkm, bmin,
          cname, cpop, cmin, (fun _ _ => "other") la ln⟩) :=
  ⟨by decide,
   (c8_enrichment_amended (fun _ _ _ _ => 0) [] [] [] (fun _ _ => "other")
      none none).1 (by decide),
   (c8_enrichment_amended (fun _ _ _ _ => 0) [] [] [] (fun _ _ => "other")
      none none).2 defaultProx
      ((c8_enrichment_amended (fun _ _ _ _ => 0) [] [] [] (fun _ _ => "other")
        none none).1 (by decide))⟩

/-! ### Derived metrics (yield computation in `generate_site`) -/

/-- `annual_income = int(airbnb_rate * 365 * airbnb_occ / 100)` of
`generate_site` — `airbnb_occ` is the occupancy percentage. -/
def annual_income (rate occ : ℚ) : ℤ := pyInt (rate * 365 * occ / 100)

/-- `gross_yield = round(annual_income / price * 100, 1) if price else 0`
of `generate_site` (the price was already collapsed upstream with
`p.get("price", 0) or 0`, so an absent price arrives here as `0`). -/
def gross_yield (rate occ price : ℚ) : ℚ :=
  if price ≠ 0 then pyRound1 ((annual_income rate occ : ℚ) / price * 100) else 0

/-- C9 counterexample: with a zero/absent price the gross yield is the
numeric 0, not an explicit "not applicable" value — and it coincides with
the genuinely computed 0% yield of a zero-rate listing, so absence and a
true zero yield are indistinguishable; moreover the annual income is the
integer truncation of the product, not the exact product (rate 51,
occupancy 47%). -/
theorem c9_yield_zero_counterexample :
    gross_yield 50 40 0 = 0 ∧
    gross_yield 0 40 100000 = 0 ∧
    annual_income 51 47 = 8749 ∧ (51 * 365 * 47 / 100 : ℚ) ≠ 8749 := by
  refine ⟨by norm_num [gross_yield], ?_, by norm_num [annual_income, pyInt], by norm_num⟩
  norm_num [gross_yield, annual_income, pyInt, pyRound1, roundHalfEven]

/-- C9 (amended): annual income is the integer truncation
`⌊rate × 365 × occ / 100⌋` of the nightly rate times 365 times the
occupancy fraction; for a non-zero price the gross yield is the one-decimal
half-even rounding of annual income / price × 100; for a zero or absent
price the yield is the numeric 0 rather than a "not applicable" marker. -/
theorem c9_yield_amended (rate occ price : ℚ) (hr : 0 ≤ rate) (ho : 0 ≤ occ)
    (hp : price ≠ 0) :
    annual_income rate occ = ⌊rate * 365 * occ / 100⌋ ∧
    gross_yield rate occ price = pyRound1 ((annual_income rate occ : ℚ) / price * 100) ∧
    gross_yield rate occ 0 = 0 := by
  refine ⟨?_, by rw [gross_yield, if_pos hp], by norm_num [gross_yield]⟩
  unfold annual_income pyInt
  rw [if_pos]
  positivity

/-- C9 amended witness: the amended statement at rate 50, occupancy 40%,
price 100000. -/
theorem c9_yield_amended_witness :
    ((0 : ℚ) ≤ 50 ∧ (0 : ℚ) ≤ 40 ∧ (100000 : ℚ) ≠ 0) ∧
    (annual_income 50 40 = ⌊(50 * 365 * 40 / 100 : ℚ)⌋ ∧
     gross_yield 50 40 100000 = pyRound1 ((annual_income 50 40 : ℚ) / 100000 * 100) ∧
     gross_yield 50 40 0 = 0) :=
  ⟨⟨by norm_num, by norm_num, by norm_num⟩,
    c9_yield_amended 50 40 100000 (by norm_num) (by norm_num) (by norm_num)⟩

/-! ### Airbnb estimator (`_estimate_airbnb`, `scraper.py`) -/

/-- `_estimate_airbnb(price_eur, region, bedrooms, beach_min, city_min)` of
`scraper.py`: `beds = bedrooms or 1` (both `None` and `0` are falsy), base
rate and occupancy from the region if/elif cascade, beach and city
proximity bonuses, and finally `(int(base_rate), min(70, int(base_occ)))`
(the values are already integers).  `price_eur` is unused by the source
body and kept for fidelity. -/
def _estimate_airbnb (price_eur : ℚ) (region : String) (bedrooms : Option ℤ)
    (beach_min city_min : ℤ) : ℤ × ℤ :=
  let beds : ℤ := match bedrooms with
    | none => 1
    | some b => if b = 0 then 1 else b
  let rateOcc : ℤ × ℤ :=
    if region = "cyclades" ∨ region = "dodecanese" then (55 + beds * 20, 50)
    else if region = "crete" ∨ region = "ionian_islands" then (45 + beds * 18, 48)
    else if region = "attica" then (40 + beds * 15, 60)
    else if region = "pelion_sporades" then (40 + beds * 15, 42)
    else if region = "central_macedonia" then (35 + beds * 12, 45)
    else (30 + beds * 12, 35)
  let rateOcc2 : ℤ × ℤ :=
    if beach_min ≤ 10 then (rateOcc.1 + 10, rateOcc.2 + 5)
    else if beach_min ≤ 20 then (rateOcc.1 + 5, rateOcc.2)
    else rateOcc
  let occ3 : ℤ := if city_min ≤ 15 then rateOcc2.2 + 8 else rateOcc2.2
  (rateOcc2.1, min 70 occ3)

/-- C10: the Airbnb estimator coerces the bedroom count with
`bedrooms or 1`, so a studio (0 bedrooms), an unknown count (`None`) and 1
bedroom produce identical (nightly rate, occupancy) estimates with all
other arguments fixed — the data model's distinction between studio and
unknown is erased. -/
theorem c10_beds_coercion (price_eur : ℚ) (region : String)
    (beach_min city_min : ℤ) :
    _estimate_airbnb price_eur region none beach_min city_min
        = _estimate_airbnb price_eur region (some 0) beach_min city_min ∧
    _estimate_airbnb price_eur region (some 0) beach_min city_min
        = _estimate_airbnb price_eur region (some 1) beach_min city_min :=
  ⟨rfl, rfl⟩

end GreekProp
